import Mathlib

/-!
# Connection-lifecycle and periodic-task supervisor of the Discord bot (`src/index.js`)

The module-level variables of `index.js` become the fields of `State`; every
callback of the module (timer callbacks, gateway event handlers, the SIGINT handler,
the continuation of an awaited `login`) becomes a function `State → State`.
The gateway client is a black box: what it answers (whether `client.user` is set,
whether `setPresence` resolves or rejects, whether `login` resolves or rejects,
what `isReady()` returns) is an input of the callback that asks.

Modelling decisions:
* A call of `updateStatus` runs to completion before the next callback starts
  (the awaited `setPresence` settles first), so it is one atomic transition; in
  `startStatusRotation`, which does not await it, its effects therefore precede the
  `setInterval` in the trace.
* `reconnect` is split at its `await login()`: the synchronous part is `reconnect`,
  the continuation is `loginSettled`, so overlapping calls can be expressed.
* Timer handles are natural numbers handed out by a counter; a handle is always
  truthy, as the timer objects returned by `setInterval` are.
* `process.exit` ends the process: once `exited` is set no callback runs any more.
* `(i + 1) % length` is taken on naturals; the theorems that depend on it assume
  non-empty lists, as the shipped `statusConfig` has (JavaScript gives `NaN` for
  a modulus of `0`).
-/

namespace Discord

/-- The `statusConfig` object of lines 23-28. -/
structure StatusConfig where
  messages : List String
  types : List String
  interval : Nat
  heartbeatInterval : Nat
deriving DecidableEq, Repr

/-- The configuration the module ships with. -/
def statusConfig : StatusConfig :=
  { messages := ["🎧 Listening to ArctixMC", "🎮 Playing ArctixMC"]
    types := ["dnd", "idle"]
    interval := 10000
    heartbeatInterval := 30000 }

/-- Line 34. -/
def maxReconnectAttempts : Nat := 5

/-- Delay of the retry scheduled by `reconnect` (line 120). -/
def reconnectDelay : Nat := 5000

/-- Which callback an interval timer runs: `updateStatus` or the heartbeat closure. -/
inductive TimerKind where
  | rotation
  | heartbeat
deriving DecidableEq, Repr

/-- Who awaits a pending `login()`: the module start-up (line 177) or `reconnect` (line 115). -/
inductive LoginOrigin where
  | startup
  | reconnect
deriving DecidableEq, Repr

/-- Calls into the runtime and the gateway client, in the order they are made. -/
inductive Effect where
  | setPresence (name : Option String) (status : Option String) (ok : Bool)
  | setInterval (handle : Nat) (kind : TimerKind) (delay : Nat)
  | clearInterval (handle : Nat)
  | setTimeoutReconnect (delay : Nat)
  | loginStart
  | listen
  | destroy
  | exit (code : Nat)
deriving DecidableEq, Repr

/-- Module variables (lines 30-33) together with the state of the runtime. -/
structure State where
  currentStatusIndex : Nat
  currentTypeIndex : Nat
  statusInterval : Option Nat
  reconnectAttempts : Nat
  /-- Interval timers that are active, with the callback they run. -/
  timers : List (Nat × TimerKind)
  /-- Next timer handle the runtime hands out. -/
  nextHandle : Nat
  /-- Number of `setTimeout(reconnect, 5000)` timers that have not fired yet. -/
  pendingRetries : Nat
  /-- The `login()` calls that have not settled yet. -/
  pendingLogins : List LoginOrigin
  /-- Whether the `client.once(ClientReady)` handler is still registered. -/
  readyArmed : Bool
  /-- Exit status, once `process.exit` was called. -/
  exited : Option Nat
  trace : List Effect
deriving DecidableEq, Repr

/-- State right after the module was loaded: `login()` of line 177 is pending. -/
def init : State :=
  { currentStatusIndex := 0
    currentTypeIndex := 0
    statusInterval := none
    reconnectAttempts := 0
    timers := []
    nextHandle := 1
    pendingRetries := 0
    pendingLogins := [LoginOrigin.startup]
    readyArmed := true
    exited := none
    trace := [Effect.loginStart] }

/-- What the gateway client answers during one call of `updateStatus`. -/
inductive PresenceOutcome where
  /-- `client.user` is not set: the call is skipped (lines 39-42). -/
  | notReady
  /-- `setPresence` resolves. -/
  | ok
  /-- `setPresence` rejects; `resetOk` tells whether the corrective call resolves. -/
  | failed (resetOk : Bool)
deriving DecidableEq, Repr

/-- Lines 37-74. -/
def updateStatus (cfg : StatusConfig) (s : State) (o : PresenceOutcome) : State :=
  match o with
  | PresenceOutcome.notReady => s
  | PresenceOutcome.ok =>
    let currentMessage := cfg.messages[s.currentStatusIndex]?
    let currentType := cfg.types[s.currentTypeIndex]?
    { s with
      trace := s.trace ++ [Effect.setPresence currentMessage currentType true]
      currentStatusIndex := (s.currentStatusIndex + 1) % cfg.messages.length
      currentTypeIndex := (s.currentTypeIndex + 1) % cfg.types.length }
  | PresenceOutcome.failed resetOk =>
    let currentMessage := cfg.messages[s.currentStatusIndex]?
    let currentType := cfg.types[s.currentTypeIndex]?
    { s with
      trace := s.trace ++ [Effect.setPresence currentMessage currentType false,
        Effect.setPresence (some "Status Reset") (some "online") resetOk] }

/-- The runtime's `clearInterval`. -/
def clearInterval (s : State) (h : Nat) : State :=
  { s with
    timers := s.timers.filter (fun t => decide (t.1 ≠ h))
    trace := s.trace ++ [Effect.clearInterval h] }

/-- The runtime's `setInterval`: returns the new state and the handle. -/
def setInterval (s : State) (kind : TimerKind) (delay : Nat) : State × Nat :=
  ({ s with
     timers := s.timers ++ [(s.nextHandle, kind)]
     nextHandle := s.nextHandle + 1
     trace := s.trace ++ [Effect.setInterval s.nextHandle kind delay] }, s.nextHandle)

/-- Lines 77-89. -/
def startStatusRotation (cfg : StatusConfig) (s : State) (o : PresenceOutcome) : State :=
  let s1 := match s.statusInterval with
    | some h => clearInterval s h
    | none => s
  let s2 := updateStatus cfg s1 o
  let r := setInterval s2 TimerKind.rotation cfg.interval
  { r.1 with statusInterval := some r.2 }

/-- Lines 92-102: the handle returned by `setInterval` is dropped. -/
def startHeartbeat (cfg : StatusConfig) (s : State) : State :=
  (setInterval s TimerKind.heartbeat cfg.heartbeatInterval).1

/-- Lines 105-115: the part of `reconnect` that runs before `await login()` suspends. -/
def reconnect (s : State) : State :=
  if s.reconnectAttempts ≥ maxReconnectAttempts then
    { s with exited := some 1, trace := s.trace ++ [Effect.exit 1] }
  else
    { s with
      reconnectAttempts := s.reconnectAttempts + 1
      pendingLogins := s.pendingLogins ++ [LoginOrigin.reconnect]
      trace := s.trace ++ [Effect.loginStart] }

/-- Continuation of a pending `login()` (lines 125-138) and of its caller:
the `catch` of `reconnect` (lines 116-121) or of the start-up call (lines 177-180). -/
def loginSettled (s : State) (origin : LoginOrigin) (ok : Bool) : State :=
  if origin ∈ s.pendingLogins then
    let s1 := { s with pendingLogins := s.pendingLogins.erase origin }
    if ok then
      { s1 with reconnectAttempts := 0 }
    else
      match origin with
      | LoginOrigin.reconnect =>
        { s1 with
          pendingRetries := s1.pendingRetries + 1
          trace := s1.trace ++ [Effect.setTimeoutReconnect reconnectDelay] }
      | LoginOrigin.startup =>
        { s1 with exited := some 1, trace := s1.trace ++ [Effect.exit 1] }
  else s

/-- Body of the heartbeat timer callback (lines 93-101). -/
def heartbeat (s : State) (isReady : Bool) : State :=
  if isReady then s else reconnect s

/-- Lines 141-150; the handler was registered with `once`. -/
def onClientReady (cfg : StatusConfig) (s : State) (o : PresenceOutcome) : State :=
  if s.readyArmed then
    let s1 := { s with readyArmed := false }
    let s2 := startStatusRotation cfg s1 o
    let s3 := startHeartbeat cfg s2
    { s3 with trace := s3.trace ++ [Effect.listen] }
  else s

/-- Lines 153-161. -/
def onShardDisconnect (s : State) : State :=
  match s.statusInterval with
  | some h => { clearInterval s h with statusInterval := none }
  | none => s

/-- Lines 164-166: logs only. -/
def onShardReconnecting (s : State) : State := s

/-- Lines 169-174. -/
def onShardResume (cfg : StatusConfig) (s : State) (o : PresenceOutcome) : State :=
  startStatusRotation cfg s o

/-- Lines 183-192. -/
def onSigint (s : State) : State :=
  let s1 := match s.statusInterval with
    | some h => clearInterval s h
    | none => s
  { s1 with exited := some 0, trace := s1.trace ++ [Effect.destroy, Effect.exit 0] }

/-- What the event loop can run next. -/
inductive Event where
  | clientReady (o : PresenceOutcome)
  | shardDisconnect
  | shardReconnecting
  | shardResume (o : PresenceOutcome)
  /-- The interval timer `h` fires and runs `updateStatus`. -/
  | statusTick (h : Nat) (o : PresenceOutcome)
  /-- The interval timer `h` fires and runs the heartbeat closure. -/
  | heartbeatTick (h : Nat) (isReady : Bool)
  | loginSettled (origin : LoginOrigin) (ok : Bool)
  /-- A pending `setTimeout(reconnect, 5000)` fires. -/
  | retryFire
  | sigint
deriving DecidableEq, Repr

/-- The callback the runtime invokes for an event; a timer that is not active does not
fire. -/
def dispatch (cfg : StatusConfig) (s : State) (e : Event) : State :=
  match e with
  | Event.clientReady o => onClientReady cfg s o
  | Event.shardDisconnect => onShardDisconnect s
  | Event.shardReconnecting => onShardReconnecting s
  | Event.shardResume o => onShardResume cfg s o
  | Event.statusTick h o =>
    if (h, TimerKind.rotation) ∈ s.timers then updateStatus cfg s o else s
  | Event.heartbeatTick h isReady =>
    if (h, TimerKind.heartbeat) ∈ s.timers then heartbeat s isReady else s
  | Event.loginSettled origin ok => loginSettled s origin ok
  | Event.retryFire =>
    if 0 < s.pendingRetries then reconnect { s with pendingRetries := s.pendingRetries - 1 }
    else s
  | Event.sigint => onSigint s

/-- One turn of the event loop: nothing runs once the process has exited. -/
def step (cfg : StatusConfig) (s : State) (e : Event) : State :=
  if s.exited.isSome then s else dispatch cfg s e

/-- Runs a sequence of events. -/
def run (cfg : StatusConfig) (s : State) (es : List Event) : State :=
  es.foldl (step cfg) s

/-- The (name, status) pairs of the `setPresence` calls that resolved, in order. -/
def applied (s : State) : List (Option String × Option String) :=
  s.trace.filterMap (fun e =>
    match e with
    | Effect.setPresence n t true => some (n, t)
    | _ => none)

/-- Handles of the timers of `tm` that run `updateStatus`. -/
def rotationHandles (tm : List (Nat × TimerKind)) : List Nat :=
  (tm.filter (fun t => decide (t.2 = TimerKind.rotation))).map Prod.fst

/-- Handles of the timers of `tm` that run the heartbeat closure. -/
def heartbeatHandles (tm : List (Nat × TimerKind)) : List Nat :=
  (tm.filter (fun t => decide (t.2 = TimerKind.heartbeat))).map Prod.fst

/-- Handles of the active timers that run `updateStatus`. -/
def rotationTimers (s : State) : List Nat := rotationHandles s.timers

/-- Handles of the active timers that run the heartbeat closure. -/
def heartbeatTimers (s : State) : List Nat := heartbeatHandles s.timers

/-- The status rotation is running: `statusInterval` holds an active rotation timer. -/
def rotationRunning (s : State) : Bool :=
  match s.statusInterval with
  | some h => decide ((h, TimerKind.rotation) ∈ s.timers)
  | none => false

/-- `n` successive calls of `updateStatus`, the `k`-th with outcome `o k`. -/
def ticks (cfg : StatusConfig) (o : Nat → PresenceOutcome) : Nat → State → State
  | 0, s => s
  | n + 1, s => updateStatus cfg (ticks cfg o n s) (o n)

/-- Configuration of the scenario: messages A, B and modes x, y, z. -/
def scenarioConfig : StatusConfig :=
  { messages := ["A", "B"]
    types := ["x", "y", "z"]
    interval := 10000
    heartbeatInterval := 30000 }

/-- Consistency of the timer table: the active rotation timers are exactly the handle held
by `statusInterval`, every handle in use was handed out, and no handle is used twice. -/
def TimersOkCore (tm : List (Nat × TimerKind)) (si : Option Nat) (nh : Nat) : Prop :=
  rotationHandles tm = si.toList ∧ (∀ t ∈ tm, t.1 < nh) ∧ (tm.map Prod.fst).Nodup

/-- `TimersOkCore` on the fields of a state. -/
def TimersOk (s : State) : Prop :=
  TimersOkCore s.timers s.statusInterval s.nextHandle

/-- While the `once` handler of `ClientReady` is still registered there is no heartbeat
timer, no pending retry and no pending login of `reconnect`. -/
def ReadyFirst (s : State) : Prop :=
  s.readyArmed = true →
    (∀ h, (h, TimerKind.heartbeat) ∉ s.timers) ∧ s.pendingRetries = 0
      ∧ LoginOrigin.reconnect ∉ s.pendingLogins

/-- One failed attempt of the retry chain: the pending login of `reconnect` rejects,
then the retry timer it scheduled fires. -/
def retryRound : List Event :=
  [Event.loginSettled LoginOrigin.reconnect false, Event.retryFire]

/-- The first `k` failed attempts of the retry chain. -/
def retryRounds : Nat → List Event
  | 0 => []
  | k + 1 => retryRounds k ++ retryRound

/-- What the trace records for `k` attempts that fail: the login and the retry timer. -/
def failedAttempts : Nat → List Effect
  | 0 => []
  | k + 1 => failedAttempts k ++ [Effect.loginStart, Effect.setTimeoutReconnect 5000]

/-- The spec's ConnectionState (section 3). -/
inductive ConnectionState where
  | disconnected
  | connecting
  | connected
  | reconnecting
deriving DecidableEq, Repr

/-- The spec's transitions of section 4.4, in the spec's words: Ready and Resumed lead to
Connected, Disconnected to Disconnected, Reconnecting to Reconnecting. -/
def specTransition : Event → Option ConnectionState
  | Event.clientReady _ => some ConnectionState.connected
  | Event.shardDisconnect => some ConnectionState.disconnected
  | Event.shardReconnecting => some ConnectionState.reconnecting
  | Event.shardResume _ => some ConnectionState.connected
  | _ => none

/-- The spec's ConnectionState after a sequence of events: the state the last gateway
event transitions to (Connecting before the first one, while the first login is pending). -/
def specConnectionState (es : List Event) : ConnectionState :=
  es.foldl (fun c e => (specTransition e).getD c) ConnectionState.connecting

/-- The four gateway signals. -/
def isGatewayEvent : Event → Bool
  | Event.clientReady _ => true
  | Event.shardDisconnect => true
  | Event.shardReconnecting => true
  | Event.shardResume _ => true
  | _ => false

/-- The Ready signal. -/
def isClientReady : Event → Bool
  | Event.clientReady _ => true
  | _ => false

/-- The last event of the sequence that is not a Reconnecting signal. -/
def lastSignal (es : List Event) : Option Event :=
  (es.filter (fun e => decide (e ≠ Event.shardReconnecting))).getLast?

/-- Whether the last event other than Reconnecting is Ready or Resumed. -/
def lastSignalStarts (es : List Event) : Bool :=
  match lastSignal es with
  | some (Event.clientReady _) => true
  | some (Event.shardResume _) => true
  | _ => false

/-! ## Rotation of the presence -/

theorem applied_append (s : State) (t : State) (l : List Effect) (h : t.trace = s.trace ++ l) :
    applied t = applied s ++ l.filterMap (fun e =>
      match e with
      | Effect.setPresence n t true => some (n, t)
      | _ => none) := by
  unfold applied
  rw [h, List.filterMap_append]

theorem updateStatus_ok_indices (cfg : StatusConfig) (s : State) :
    (updateStatus cfg s PresenceOutcome.ok).currentStatusIndex
        = (s.currentStatusIndex + 1) % cfg.messages.length
    ∧ (updateStatus cfg s PresenceOutcome.ok).currentTypeIndex
        = (s.currentTypeIndex + 1) % cfg.types.length := by
  simp [updateStatus]

theorem updateStatus_ok_applied (cfg : StatusConfig) (s : State) :
    applied (updateStatus cfg s PresenceOutcome.ok)
      = applied s ++ [(cfg.messages[s.currentStatusIndex]?, cfg.types[s.currentTypeIndex]?)] := by
  rw [applied_append s _ [Effect.setPresence cfg.messages[s.currentStatusIndex]?
    cfg.types[s.currentTypeIndex]? true] (by simp [updateStatus])]
  simp

/-- C1. Starting from indices (0, 0), with `M ≥ 1` messages and `K ≥ 1` modes, `N` successive
calls of `updateStatus` whose `setPresence` resolves apply, in order, the pairs
`(messages[k mod M], types[k mod K])` for `k = 0..N-1`, and leave the indices at `N mod M`
and `N mod K`, both inside their lists. -/
theorem rotation_after_successful_ticks (cfg : StatusConfig) (s : State) (N : Nat)
    (hM : 1 ≤ cfg.messages.length) (hK : 1 ≤ cfg.types.length)
    (hi : s.currentStatusIndex = 0) (hj : s.currentTypeIndex = 0) :
    (ticks cfg (fun _ => PresenceOutcome.ok) N s).currentStatusIndex = N % cfg.messages.length
    ∧ (ticks cfg (fun _ => PresenceOutcome.ok) N s).currentTypeIndex = N % cfg.types.length
    ∧ (ticks cfg (fun _ => PresenceOutcome.ok) N s).currentStatusIndex < cfg.messages.length
    ∧ (ticks cfg (fun _ => PresenceOutcome.ok) N s).currentTypeIndex < cfg.types.length
    ∧ applied (ticks cfg (fun _ => PresenceOutcome.ok) N s)
        = applied s ++ (List.range N).map (fun k =>
            (cfg.messages[k % cfg.messages.length]?, cfg.types[k % cfg.types.length]?)) := by
  have key : (ticks cfg (fun _ => PresenceOutcome.ok) N s).currentStatusIndex
        = N % cfg.messages.length
      ∧ (ticks cfg (fun _ => PresenceOutcome.ok) N s).currentTypeIndex = N % cfg.types.length
      ∧ applied (ticks cfg (fun _ => PresenceOutcome.ok) N s)
          = applied s ++ (List.range N).map (fun k =>
              (cfg.messages[k % cfg.messages.length]?, cfg.types[k % cfg.types.length]?)) := by
    induction N with
    | zero => simp [ticks, hi, hj]
    | succ n ih =>
      obtain ⟨h1, h2, h3⟩ := ih
      have hu := updateStatus_ok_indices cfg (ticks cfg (fun _ => PresenceOutcome.ok) n s)
      have ha := updateStatus_ok_applied cfg (ticks cfg (fun _ => PresenceOutcome.ok) n s)
      refine ⟨?_, ?_, ?_⟩
      · show (updateStatus cfg _ PresenceOutcome.ok).currentStatusIndex = _
        rw [hu.1, h1, Nat.mod_add_mod]
      · show (updateStatus cfg _ PresenceOutcome.ok).currentTypeIndex = _
        rw [hu.2, h2, Nat.mod_add_mod]
      · show applied (updateStatus cfg _ PresenceOutcome.ok) = _
        rw [ha, h3, h1, h2, List.range_succ, List.map_append, List.append_assoc]
        rfl
  obtain ⟨h1, h2, h3⟩ := key
  exact ⟨h1, h2, h1 ▸ Nat.mod_lt _ hM, h2 ▸ Nat.mod_lt _ hK, h3⟩

/-- Witness of C1: with messages A, B and modes x, y, z, five resolved ticks apply
(A,x) (B,y) (A,z) (B,x) (A,y) and leave the indices at 5 mod 2 and 5 mod 3. -/
theorem rotation_after_successful_ticks_witness :
    (ticks scenarioConfig (fun _ => PresenceOutcome.ok) 5 init).currentStatusIndex = 1
    ∧ (ticks scenarioConfig (fun _ => PresenceOutcome.ok) 5 init).currentTypeIndex = 2
    ∧ (ticks scenarioConfig (fun _ => PresenceOutcome.ok) 5 init).currentStatusIndex < 2
    ∧ (ticks scenarioConfig (fun _ => PresenceOutcome.ok) 5 init).currentTypeIndex < 3
    ∧ applied (ticks scenarioConfig (fun _ => PresenceOutcome.ok) 5 init)
        = [(some "A", some "x"), (some "B", some "y"), (some "A", some "z"),
           (some "B", some "x"), (some "A", some "y")] :=
  rotation_after_successful_ticks scenarioConfig init 5 (by decide) (by decide) rfl rfl

theorem ticks_failed_frame (cfg : StatusConfig) (s : State) (r : Nat → Bool) (n : Nat) :
    (ticks cfg (fun k => PresenceOutcome.failed (r k)) n s).currentStatusIndex
        = s.currentStatusIndex
    ∧ (ticks cfg (fun k => PresenceOutcome.failed (r k)) n s).currentTypeIndex
        = s.currentTypeIndex := by
  induction n with
  | zero => exact ⟨rfl, rfl⟩
  | succ m ih =>
    obtain ⟨h1, h2⟩ := ih
    refine ⟨?_, ?_⟩
    · show (updateStatus cfg _ (PresenceOutcome.failed (r m))).currentStatusIndex = _
      simpa [updateStatus] using h1
    · show (updateStatus cfg _ (PresenceOutcome.failed (r m))).currentTypeIndex = _
      simpa [updateStatus] using h2

/-- C2. A call of `updateStatus` whose `setPresence` rejects leaves both indices unchanged,
whether the corrective call resolves or rejects (`r k` for the `k`-th call); so after any
number `n` of such calls in a row the indices are still the same, every one of them tried
the same pair, and the next call that resolves applies the pair that had failed. -/
theorem failed_update_keeps_rotation_state (cfg : StatusConfig) (s : State) (r : Nat → Bool)
    (n : Nat) :
    (ticks cfg (fun k => PresenceOutcome.failed (r k)) n s).currentStatusIndex
        = s.currentStatusIndex
    ∧ (ticks cfg (fun k => PresenceOutcome.failed (r k)) n s).currentTypeIndex
        = s.currentTypeIndex
    ∧ (ticks cfg (fun k => PresenceOutcome.failed (r k)) (n + 1) s).trace
        = (ticks cfg (fun k => PresenceOutcome.failed (r k)) n s).trace
          ++ [Effect.setPresence cfg.messages[s.currentStatusIndex]?
            cfg.types[s.currentTypeIndex]? false,
          Effect.setPresence (some "Status Reset") (some "online") (r n)]
    ∧ (updateStatus cfg (ticks cfg (fun k => PresenceOutcome.failed (r k)) n s)
          PresenceOutcome.ok).trace
        = (ticks cfg (fun k => PresenceOutcome.failed (r k)) n s).trace
          ++ [Effect.setPresence cfg.messages[s.currentStatusIndex]?
            cfg.types[s.currentTypeIndex]? true] := by
  obtain ⟨h1, h2⟩ := ticks_failed_frame cfg s r n
  refine ⟨h1, h2, ?_, ?_⟩
  · show (updateStatus cfg _ (PresenceOutcome.failed (r n))).trace = _
    simp [updateStatus, h1, h2]
  · simp [updateStatus, h1, h2]

/-! ## The timer table -/

theorem run_append (cfg : StatusConfig) (s : State) (es : List Event) (e : Event) :
    run cfg s (es ++ [e]) = step cfg (run cfg s es) e := by
  simp [run, List.foldl_append]

theorem updateStatus_frame (cfg : StatusConfig) (s : State) (o : PresenceOutcome) :
    (updateStatus cfg s o).timers = s.timers
    ∧ (updateStatus cfg s o).statusInterval = s.statusInterval
    ∧ (updateStatus cfg s o).nextHandle = s.nextHandle
    ∧ (updateStatus cfg s o).exited = s.exited
    ∧ (updateStatus cfg s o).readyArmed = s.readyArmed
    ∧ (updateStatus cfg s o).pendingLogins = s.pendingLogins
    ∧ (updateStatus cfg s o).pendingRetries = s.pendingRetries
    ∧ (updateStatus cfg s o).reconnectAttempts = s.reconnectAttempts := by
  cases o <;> simp [updateStatus]

theorem timersOkCore_clear (tm : List (Nat × TimerKind)) (h nh : Nat)
    (hk : TimersOkCore tm (some h) nh) :
    TimersOkCore (tm.filter (fun t => decide (t.1 ≠ h))) none nh := by
  obtain ⟨h1, h2, h3⟩ := hk
  refine ⟨?_, ?_, ?_⟩
  · have hmem : ∀ x ∈ rotationHandles tm, x = h := by
      intro x hx
      rw [h1] at hx
      simpa using hx
    simp only [Option.toList]
    rw [List.eq_nil_iff_forall_not_mem]
    intro x hx
    simp only [rotationHandles, List.mem_map, List.mem_filter, decide_eq_true_eq] at hx
    obtain ⟨t, ⟨⟨ht, hne⟩, hrot⟩, rfl⟩ := hx
    apply hne
    apply hmem
    simp only [rotationHandles, List.mem_map, List.mem_filter, decide_eq_true_eq]
    exact ⟨t, ⟨ht, hrot⟩, rfl⟩
  · intro t ht
    exact h2 t (List.mem_filter.mp ht).1
  · exact (List.filter_sublist tm).map Prod.fst |>.nodup h3

theorem timersOkCore_add (tm : List (Nat × TimerKind)) (si : Option Nat) (nh : Nat)
    (hk : TimersOkCore tm si nh) :
    TimersOkCore (tm ++ [(nh, TimerKind.heartbeat)]) si (nh + 1)
    ∧ (si = none → TimersOkCore (tm ++ [(nh, TimerKind.rotation)]) (some nh) (nh + 1)) := by
  obtain ⟨h1, h2, h3⟩ := hk
  have hlt : ∀ k, ∀ t ∈ tm ++ [(nh, k)], t.1 < nh + 1 := by
    intro k t ht
    rcases List.mem_append.mp ht with ht | ht
    · exact Nat.lt_succ_of_lt (h2 t ht)
    · simp only [List.mem_singleton] at ht
      subst ht
      exact Nat.lt_succ_self _
  have hnd : ∀ k, ((tm ++ [(nh, k)]).map Prod.fst).Nodup := by
    intro k
    rw [List.map_append, List.nodup_append]
    refine ⟨h3, by simp, ?_⟩
    intro a ha hb
    simp only [List.map_cons, List.map_nil, List.mem_singleton] at hb
    subst hb
    obtain ⟨t, ht, rfl⟩ := List.mem_map.mp ha
    exact Nat.lt_irrefl _ (h2 t ht)
  refine ⟨⟨?_, hlt _, hnd _⟩, ?_⟩
  · rw [← h1]
    simp [rotationHandles, List.filter_append]
  · intro hsi
    subst hsi
    refine ⟨?_, hlt _, hnd _⟩
    simp only [rotationHandles] at h1
    simp [rotationHandles, List.filter_append, h1]

theorem timersOk_of_eq (s t : State) (h1 : t.timers = s.timers)
    (h2 : t.statusInterval = s.statusInterval) (h3 : t.nextHandle = s.nextHandle)
    (hs : TimersOk s) : TimersOk t := by
  unfold TimersOk at *
  rw [h1, h2, h3]
  exact hs

theorem startStatusRotation_timersOk (cfg : StatusConfig) (s : State) (o : PresenceOutcome)
    (hs : TimersOk s) : TimersOk (startStatusRotation cfg s o) := by
  unfold TimersOk at *
  have f1 := fun t => (updateStatus_frame cfg t o).1
  have f3 := fun t => (updateStatus_frame cfg t o).2.2.1
  cases hsi : s.statusInterval with
  | none =>
    rw [hsi] at hs
    have := (timersOkCore_add _ _ _ hs).2 rfl
    simpa [startStatusRotation, setInterval, hsi, f1, f3] using this
  | some h =>
    rw [hsi] at hs
    have := (timersOkCore_add _ _ _ (timersOkCore_clear _ _ _ hs)).2 rfl
    simpa [startStatusRotation, setInterval, hsi, f1, f3, clearInterval] using this

theorem startHeartbeat_timersOk (cfg : StatusConfig) (s : State)
    (hs : TimersOk s) : TimersOk (startHeartbeat cfg s) := by
  unfold TimersOk at *
  have := (timersOkCore_add _ _ _ hs).1
  simpa [startHeartbeat, setInterval] using this

theorem onShardDisconnect_timersOk (s : State) (hs : TimersOk s) :
    TimersOk (onShardDisconnect s) := by
  unfold TimersOk at *
  cases hsi : s.statusInterval with
  | none => simpa [onShardDisconnect, hsi] using hsi ▸ hs
  | some h =>
    rw [hsi] at hs
    simpa [onShardDisconnect, hsi, clearInterval] using timersOkCore_clear _ _ _ hs

theorem reconnect_frame (s : State) :
    (reconnect s).timers = s.timers
    ∧ (reconnect s).statusInterval = s.statusInterval
    ∧ (reconnect s).nextHandle = s.nextHandle
    ∧ (reconnect s).readyArmed = s.readyArmed
    ∧ (reconnect s).currentStatusIndex = s.currentStatusIndex
    ∧ (reconnect s).currentTypeIndex = s.currentTypeIndex := by
  unfold reconnect
  split <;> simp

theorem loginSettled_frame (s : State) (origin : LoginOrigin) (ok : Bool) :
    (loginSettled s origin ok).timers = s.timers
    ∧ (loginSettled s origin ok).statusInterval = s.statusInterval
    ∧ (loginSettled s origin ok).nextHandle = s.nextHandle
    ∧ (loginSettled s origin ok).readyArmed = s.readyArmed
    ∧ (loginSettled s origin ok).currentStatusIndex = s.currentStatusIndex
    ∧ (loginSettled s origin ok).currentTypeIndex = s.currentTypeIndex := by
  unfold loginSettled
  cases origin <;> cases ok <;> simp <;> split <;> simp

theorem step_of_exited (cfg : StatusConfig) (s : State) (e : Event) (h : s.exited ≠ none) :
    step cfg s e = s := by
  unfold step
  cases hx : s.exited with
  | none => exact absurd hx h
  | some c => simp

theorem onClientReady_timersOk (cfg : StatusConfig) (s : State) (o : PresenceOutcome)
    (hs : TimersOk s) : TimersOk (onClientReady cfg s o) := by
  unfold onClientReady
  split
  · apply timersOk_of_eq (startHeartbeat cfg (startStatusRotation cfg
      { s with readyArmed := false } o)) _ rfl rfl rfl
    apply startHeartbeat_timersOk
    apply startStatusRotation_timersOk
    exact timersOk_of_eq s _ rfl rfl rfl hs
  · exact hs

theorem step_of_running (cfg : StatusConfig) (s : State) (e : Event) (h : s.exited = none) :
    step cfg s e = dispatch cfg s e := by
  simp [step, h]

theorem dispatch_timersOk (cfg : StatusConfig) (s : State) (e : Event) (ok : TimersOk s) :
    (dispatch cfg s e).exited = none → TimersOk (dispatch cfg s e) := by
  intro hex
  cases e with
  | clientReady o => exact onClientReady_timersOk cfg s o ok
  | shardDisconnect => exact onShardDisconnect_timersOk s ok
  | shardReconnecting => exact ok
  | shardResume o => exact startStatusRotation_timersOk cfg s o ok
  | statusTick h o =>
    simp only [dispatch]
    split
    · obtain ⟨f1, f2, f3, -⟩ := updateStatus_frame cfg s o
      exact timersOk_of_eq s _ f1 f2 f3 ok
    · exact ok
  | heartbeatTick h isReady =>
    simp only [dispatch]
    split
    · unfold heartbeat
      split
      · exact ok
      · obtain ⟨f1, f2, f3, -⟩ := reconnect_frame s
        exact timersOk_of_eq s _ f1 f2 f3 ok
    · exact ok
  | loginSettled origin b =>
    obtain ⟨f1, f2, f3, -⟩ := loginSettled_frame s origin b
    exact timersOk_of_eq s _ f1 f2 f3 ok
  | retryFire =>
    simp only [dispatch]
    split
    · obtain ⟨f1, f2, f3, -⟩ := reconnect_frame { s with pendingRetries := s.pendingRetries - 1 }
      exact timersOk_of_eq s _ f1 f2 f3 ok
    · exact ok
  | sigint =>
    simp [dispatch, onSigint] at hex

theorem step_timersOk (cfg : StatusConfig) (s : State) (e : Event)
    (hs : s.exited = none → TimersOk s) :
    (step cfg s e).exited = none → TimersOk (step cfg s e) := by
  by_cases hx : s.exited = none
  · rw [step_of_running cfg s e hx]
    exact dispatch_timersOk cfg s e (hs hx)
  · rw [step_of_exited cfg s e hx]
    exact hs

theorem init_timersOk : TimersOk init := by
  simp [TimersOk, TimersOkCore, init, rotationHandles]

theorem run_timersOk (cfg : StatusConfig) (es : List Event) :
    (run cfg init es).exited = none → TimersOk (run cfg init es) := by
  induction es using List.reverseRecOn with
  | nil => intro _; exact init_timersOk
  | append_singleton l e ih =>
    rw [run_append]
    exact step_timersOk cfg _ e ih

theorem startStatusRotation_statusInterval (cfg : StatusConfig) (s : State)
    (o : PresenceOutcome) :
    ∃ h, (startStatusRotation cfg s o).statusInterval = some h := by
  simp [startStatusRotation, setInterval]

theorem rotationTimers_of_timersOk (s : State) (hs : TimersOk s) :
    rotationTimers s = s.statusInterval.toList ∧ (rotationTimers s).length ≤ 1 := by
  have h1 : rotationTimers s = s.statusInterval.toList := hs.1
  refine ⟨h1, ?_⟩
  rw [h1]
  cases s.statusInterval <;> simp [Option.toList]

theorem mem_rotation_of_core (tm : List (Nat × TimerKind)) (h nh : Nat)
    (hk : TimersOkCore tm (some h) nh) : (h, TimerKind.rotation) ∈ tm := by
  have : h ∈ rotationHandles tm := by rw [hk.1]; simp [Option.toList]
  simp only [rotationHandles, List.mem_map, List.mem_filter, decide_eq_true_eq] at this
  obtain ⟨t, ⟨ht, hrot⟩, rfl⟩ := this
  obtain ⟨a, k⟩ := t
  simp only at hrot
  subst hrot
  exact ht

theorem heartbeatHandles_clear (tm : List (Nat × TimerKind)) (h nh : Nat)
    (hk : TimersOkCore tm (some h) nh) :
    heartbeatHandles (tm.filter (fun t => decide (t.1 ≠ h))) = heartbeatHandles tm := by
  have hmem := mem_rotation_of_core tm h nh hk
  have hinj := List.inj_on_of_nodup_map hk.2.2
  unfold heartbeatHandles
  rw [List.filter_filter]
  congr 1
  apply List.filter_congr
  intro t ht
  by_cases hb : t.2 = TimerKind.heartbeat
  · have hne : t.1 ≠ h := by
      intro heq
      have := hinj ht hmem heq
      rw [this] at hb
      cases hb
    simp [hb, hne]
  · simp [hb]

theorem rotationRunning_startStatusRotation (cfg : StatusConfig) (s : State)
    (o : PresenceOutcome) : rotationRunning (startStatusRotation cfg s o) = true := by
  simp [startStatusRotation, setInterval, rotationRunning]

theorem not_mem_of_rotationTimers_nil (s : State) (hs : rotationTimers s = []) (h : Nat) :
    (h, TimerKind.rotation) ∉ s.timers := by
  intro hm
  have : h ∈ rotationTimers s := by
    simp only [rotationTimers, rotationHandles, List.mem_map, List.mem_filter,
      decide_eq_true_eq]
    exact ⟨(h, TimerKind.rotation), ⟨hm, rfl⟩, rfl⟩
  rw [hs] at this
  exact absurd this (List.not_mem_nil _)

/-- C6. In every state the running process can reach, at most one rotation timer is active
and it is the one whose handle `statusInterval` holds; calling `startStatusRotation` twice in
succession leaves exactly one active rotation timer, held by `statusInterval`. -/
theorem single_rotation_timer (cfg : StatusConfig) (es : List Event)
    (o1 o2 : PresenceOutcome) (hx : (run cfg init es).exited = none) :
    rotationTimers (run cfg init es) = (run cfg init es).statusInterval.toList
    ∧ (rotationTimers (run cfg init es)).length ≤ 1
    ∧ ∃ h, (startStatusRotation cfg (startStatusRotation cfg (run cfg init es) o1) o2).statusInterval
          = some h
        ∧ rotationTimers (startStatusRotation cfg (startStatusRotation cfg (run cfg init es) o1) o2)
          = [h] := by
  have ok := run_timersOk cfg es hx
  obtain ⟨h1, h2⟩ := rotationTimers_of_timersOk _ ok
  refine ⟨h1, h2, ?_⟩
  have ok2 := startStatusRotation_timersOk cfg _ o2 (startStatusRotation_timersOk cfg _ o1 ok)
  obtain ⟨h, hh⟩ := startStatusRotation_statusInterval cfg
    (startStatusRotation cfg (run cfg init es) o1) o2
  refine ⟨h, hh, ?_⟩
  rw [(rotationTimers_of_timersOk _ ok2).1, hh]
  rfl

/-- Witness of C6: after Ready, Disconnected and Resumed, two further calls of
`startStatusRotation` leave exactly one rotation timer. -/
theorem single_rotation_timer_witness :
    rotationTimers (run statusConfig init
        [Event.clientReady PresenceOutcome.ok, Event.shardDisconnect,
         Event.shardResume PresenceOutcome.ok])
      = (run statusConfig init
        [Event.clientReady PresenceOutcome.ok, Event.shardDisconnect,
         Event.shardResume PresenceOutcome.ok]).statusInterval.toList
    ∧ (rotationTimers (run statusConfig init
        [Event.clientReady PresenceOutcome.ok, Event.shardDisconnect,
         Event.shardResume PresenceOutcome.ok])).length ≤ 1
    ∧ ∃ h, (startStatusRotation statusConfig (startStatusRotation statusConfig
          (run statusConfig init
            [Event.clientReady PresenceOutcome.ok, Event.shardDisconnect,
             Event.shardResume PresenceOutcome.ok]) PresenceOutcome.ok)
          PresenceOutcome.ok).statusInterval = some h
        ∧ rotationTimers (startStatusRotation statusConfig (startStatusRotation statusConfig
          (run statusConfig init
            [Event.clientReady PresenceOutcome.ok, Event.shardDisconnect,
             Event.shardResume PresenceOutcome.ok]) PresenceOutcome.ok)
          PresenceOutcome.ok) = [h] :=
  single_rotation_timer statusConfig
    [Event.clientReady PresenceOutcome.ok, Event.shardDisconnect,
     Event.shardResume PresenceOutcome.ok] PresenceOutcome.ok PresenceOutcome.ok (by decide)

theorem onShardDisconnect_frame (s : State) :
    (onShardDisconnect s).currentStatusIndex = s.currentStatusIndex
    ∧ (onShardDisconnect s).currentTypeIndex = s.currentTypeIndex
    ∧ (onShardDisconnect s).statusInterval = none
    ∧ (onShardDisconnect s).exited = s.exited
    ∧ applied (onShardDisconnect s) = applied s := by
  unfold onShardDisconnect
  cases hsi : s.statusInterval with
  | none => simp [hsi]
  | some h => simp [clearInterval, applied, List.filterMap_append]

theorem applied_startStatusRotation_ok (cfg : StatusConfig) (s : State) :
    applied (startStatusRotation cfg s PresenceOutcome.ok)
      = applied s ++ [(cfg.messages[s.currentStatusIndex]?, cfg.types[s.currentTypeIndex]?)] := by
  unfold startStatusRotation
  cases hsi : s.statusInterval with
  | none => simp [setInterval, updateStatus, applied, List.filterMap_append]
  | some h => simp [setInterval, updateStatus, clearInterval, applied, List.filterMap_append]

/-- C10. For every state the running process can reach (in particular after Ready and any
number of ticks), with rotation state (i, j): the Disconnected handler leaves (i, j)
unchanged and leaves no rotation timer active, so no rotation tick can run until Resumed;
the Resumed handler then applies the pair at (i, j) and the rotation is running again. -/
theorem resume_restarts_at_preserved_state (cfg : StatusConfig) (es : List Event)
    (hx : (run cfg init es).exited = none) :
    (step cfg (run cfg init es) Event.shardDisconnect).currentStatusIndex
        = (run cfg init es).currentStatusIndex
    ∧ (step cfg (run cfg init es) Event.shardDisconnect).currentTypeIndex
        = (run cfg init es).currentTypeIndex
    ∧ rotationTimers (step cfg (run cfg init es) Event.shardDisconnect) = []
    ∧ rotationRunning (step cfg (run cfg init es) Event.shardDisconnect) = false
    ∧ (∀ h o, step cfg (step cfg (run cfg init es) Event.shardDisconnect) (Event.statusTick h o)
        = step cfg (run cfg init es) Event.shardDisconnect)
    ∧ applied (step cfg (step cfg (run cfg init es) Event.shardDisconnect)
          (Event.shardResume PresenceOutcome.ok))
        = applied (run cfg init es)
          ++ [(cfg.messages[(run cfg init es).currentStatusIndex]?,
               cfg.types[(run cfg init es).currentTypeIndex]?)]
    ∧ rotationRunning (step cfg (step cfg (run cfg init es) Event.shardDisconnect)
          (Event.shardResume PresenceOutcome.ok)) = true := by
  have ok := run_timersOk cfg es hx
  have hd : step cfg (run cfg init es) Event.shardDisconnect
      = onShardDisconnect (run cfg init es) := by
    rw [step_of_running cfg _ _ hx]
    rfl
  obtain ⟨f1, f2, f3, f4, f5⟩ := onShardDisconnect_frame (run cfg init es)
  have hdx : (onShardDisconnect (run cfg init es)).exited = none := by rw [f4, hx]
  have okd := onShardDisconnect_timersOk _ ok
  have hnil : rotationTimers (onShardDisconnect (run cfg init es)) = [] := by
    rw [(rotationTimers_of_timersOk _ okd).1, f3]
    rfl
  rw [hd]
  refine ⟨f1, f2, hnil, ?_, ?_, ?_, ?_⟩
  · simp [rotationRunning, f3]
  · intro h o
    rw [step_of_running cfg _ _ hdx]
    simp [dispatch, not_mem_of_rotationTimers_nil _ hnil h]
  · rw [step_of_running cfg _ _ hdx]
    show applied (startStatusRotation cfg _ PresenceOutcome.ok) = _
    rw [applied_startStatusRotation_ok, f1, f2, f5]
  · rw [step_of_running cfg _ _ hdx]
    exact rotationRunning_startStatusRotation cfg _ _

/-- Witness of C10: the update made by Ready leaves the rotation state at (1, 1); after
Disconnected and Resumed the pair at (1, 1) is applied, not the pair at (0, 0). -/
theorem resume_restarts_at_preserved_state_witness :
    (run statusConfig init [Event.clientReady PresenceOutcome.ok]).currentStatusIndex = 1
    ∧ (run statusConfig init [Event.clientReady PresenceOutcome.ok]).currentTypeIndex = 1
    ∧ applied (step statusConfig (step statusConfig
          (run statusConfig init [Event.clientReady PresenceOutcome.ok]) Event.shardDisconnect)
          (Event.shardResume PresenceOutcome.ok))
        = applied (run statusConfig init [Event.clientReady PresenceOutcome.ok])
          ++ [(statusConfig.messages[(run statusConfig init
                [Event.clientReady PresenceOutcome.ok]).currentStatusIndex]?,
               statusConfig.types[(run statusConfig init
                [Event.clientReady PresenceOutcome.ok]).currentTypeIndex]?)] :=
  ⟨by decide, by decide,
    (resume_restarts_at_preserved_state statusConfig [Event.clientReady PresenceOutcome.ok]
      (by decide)).2.2.2.2.2.1⟩

theorem onSigint_trace (s : State) :
    (onSigint s).exited = some 0
    ∧ (onSigint s).trace = (match s.statusInterval with
        | some h => s.trace ++ [Effect.clearInterval h]
        | none => s.trace) ++ [Effect.destroy, Effect.exit 0] := by
  unfold onSigint
  cases hsi : s.statusInterval with
  | none => simp
  | some h => simp [clearInterval]

theorem onSigint_timers (s : State) (hs : TimersOk s) :
    rotationTimers (onSigint s) = [] ∧ heartbeatTimers (onSigint s) = heartbeatTimers s := by
  unfold TimersOk at hs
  unfold onSigint
  cases hsi : s.statusInterval with
  | none =>
    rw [hsi] at hs
    exact ⟨hs.1, rfl⟩
  | some h =>
    rw [hsi] at hs
    exact ⟨(timersOkCore_clear _ _ _ hs).1, heartbeatHandles_clear _ _ _ hs⟩

/-- C9, as stated, fails: after the first login, Ready and SIGINT the process has exited with
status 0 while the heartbeat timer (handle 2) is still in the timer table and was never
passed to `clearInterval`. -/
theorem sigint_leaves_heartbeat_timer :
    (run statusConfig init
        [Event.loginSettled LoginOrigin.startup true, Event.clientReady PresenceOutcome.ok,
         Event.sigint]).exited = some 0
    ∧ heartbeatTimers (run statusConfig init
        [Event.loginSettled LoginOrigin.startup true, Event.clientReady PresenceOutcome.ok,
         Event.sigint]) = [2]
    ∧ Effect.clearInterval 2 ∉ (run statusConfig init
        [Event.loginSettled LoginOrigin.startup true, Event.clientReady PresenceOutcome.ok,
         Event.sigint]).trace := by
  decide

/-- C9, amended. On SIGINT, from every state the running process can reach, the rotation
timer held by `statusInterval` is cancelled (no rotation timer stays active), then
`client.destroy` is called and the process exits with status 0; the heartbeat timers are
left as they were, the handler does not cancel them. -/
theorem sigint_shutdown (cfg : StatusConfig) (es : List Event)
    (hx : (run cfg init es).exited = none) :
    rotationTimers (step cfg (run cfg init es) Event.sigint) = []
    ∧ heartbeatTimers (step cfg (run cfg init es) Event.sigint)
        = heartbeatTimers (run cfg init es)
    ∧ (step cfg (run cfg init es) Event.sigint).exited = some 0
    ∧ (step cfg (run cfg init es) Event.sigint).trace
        = (match (run cfg init es).statusInterval with
            | some h => (run cfg init es).trace ++ [Effect.clearInterval h]
            | none => (run cfg init es).trace) ++ [Effect.destroy, Effect.exit 0] := by
  have ok := run_timersOk cfg es hx
  have hd : step cfg (run cfg init es) Event.sigint = onSigint (run cfg init es) := by
    rw [step_of_running cfg _ _ hx]
    rfl
  rw [hd]
  exact ⟨(onSigint_timers _ ok).1, (onSigint_timers _ ok).2, (onSigint_trace _).1,
    (onSigint_trace _).2⟩

/-- Witness of C9 (amended): SIGINT after the first login and Ready. -/
theorem sigint_shutdown_witness :
    rotationTimers (step statusConfig (run statusConfig init
        [Event.loginSettled LoginOrigin.startup true, Event.clientReady PresenceOutcome.ok])
        Event.sigint) = []
    ∧ heartbeatTimers (step statusConfig (run statusConfig init
        [Event.loginSettled LoginOrigin.startup true, Event.clientReady PresenceOutcome.ok])
        Event.sigint)
      = heartbeatTimers (run statusConfig init
        [Event.loginSettled LoginOrigin.startup true, Event.clientReady PresenceOutcome.ok])
    ∧ (step statusConfig (run statusConfig init
        [Event.loginSettled LoginOrigin.startup true, Event.clientReady PresenceOutcome.ok])
        Event.sigint).exited = some 0 :=
  ⟨(sigint_shutdown statusConfig
      [Event.loginSettled LoginOrigin.startup true, Event.clientReady PresenceOutcome.ok]
      (by decide)).1,
   (sigint_shutdown statusConfig
      [Event.loginSettled LoginOrigin.startup true, Event.clientReady PresenceOutcome.ok]
      (by decide)).2.1,
   (sigint_shutdown statusConfig
      [Event.loginSettled LoginOrigin.startup true, Event.clientReady PresenceOutcome.ok]
      (by decide)).2.2.1⟩

/-! ## Reconnection -/

theorem reconnect_attempts_le (s : State) (h : s.reconnectAttempts ≤ maxReconnectAttempts) :
    (reconnect s).reconnectAttempts ≤ maxReconnectAttempts := by
  unfold reconnect
  split
  · exact h
  · simp only
    omega

theorem loginSettled_attempts_le (s : State) (origin : LoginOrigin) (ok : Bool)
    (h : s.reconnectAttempts ≤ maxReconnectAttempts) :
    (loginSettled s origin ok).reconnectAttempts ≤ maxReconnectAttempts := by
  unfold loginSettled
  cases origin <;> cases ok <;> simp <;> split <;> simp [h]

theorem startStatusRotation_attempts (cfg : StatusConfig) (s : State) (o : PresenceOutcome) :
    (startStatusRotation cfg s o).reconnectAttempts = s.reconnectAttempts := by
  have f := fun t => (updateStatus_frame cfg t o).2.2.2.2.2.2.2
  unfold startStatusRotation
  cases hsi : s.statusInterval <;> simp [setInterval, clearInterval, f]

theorem dispatch_attempts_le (cfg : StatusConfig) (s : State) (e : Event)
    (h : s.reconnectAttempts ≤ maxReconnectAttempts) :
    (dispatch cfg s e).reconnectAttempts ≤ maxReconnectAttempts := by
  cases e with
  | clientReady o =>
    simp only [dispatch, onClientReady]
    split
    · simp only [startHeartbeat, setInterval, startStatusRotation_attempts]
      exact h
    · exact h
  | shardDisconnect =>
    simp only [dispatch, onShardDisconnect]
    split <;> simp [clearInterval, h]
  | shardReconnecting => exact h
  | shardResume o =>
    simp only [dispatch, onShardResume, startStatusRotation_attempts]
    exact h
  | statusTick a o =>
    simp only [dispatch]
    split
    · rw [(updateStatus_frame cfg s o).2.2.2.2.2.2.2]
      exact h
    · exact h
  | heartbeatTick a isReady =>
    simp only [dispatch, heartbeat]
    split
    · split
      · exact h
      · exact reconnect_attempts_le s h
    · exact h
  | loginSettled origin b => exact loginSettled_attempts_le s origin b h
  | retryFire =>
    simp only [dispatch]
    split
    · exact reconnect_attempts_le _ h
    · exact h
  | sigint =>
    simp only [dispatch, onSigint]
    split <;> simp [clearInterval, h]

theorem run_attempts_le (cfg : StatusConfig) (es : List Event) :
    (run cfg init es).reconnectAttempts ≤ maxReconnectAttempts := by
  induction es using List.reverseRecOn with
  | nil => simp [run, init, maxReconnectAttempts]
  | append_singleton l e ih =>
    rw [run_append]
    by_cases hx : (run cfg init l).exited = none
    · rw [step_of_running cfg _ _ hx]
      exact dispatch_attempts_le cfg _ e ih
    · rw [step_of_exited cfg _ _ hx]
      exact ih

theorem run_concat (cfg : StatusConfig) (s : State) (es fs : List Event) :
    run cfg s (es ++ fs) = run cfg (run cfg s es) fs := by
  simp [run, List.foldl_append]

/-- C3. In every state the process can reach, `reconnectAttempts` is at most
`maxReconnectAttempts` (5); a call of `reconnect` with `reconnectAttempts ≥ 5` exits the
process with status 1 without starting a login or counting an attempt; and the counter is 0
right after any pending login resolves. -/
theorem reconnect_attempts_bounded (cfg : StatusConfig) (es : List Event) (s t : State)
    (origin : LoginOrigin)
    (hs : maxReconnectAttempts ≤ s.reconnectAttempts)
    (ht : t.exited = none) (hp : origin ∈ t.pendingLogins) :
    (run cfg init es).reconnectAttempts ≤ maxReconnectAttempts
    ∧ maxReconnectAttempts = 5
    ∧ ((reconnect s).exited = some 1
        ∧ (reconnect s).trace = s.trace ++ [Effect.exit 1]
        ∧ (reconnect s).pendingLogins = s.pendingLogins
        ∧ (reconnect s).reconnectAttempts = s.reconnectAttempts)
    ∧ (step cfg t (Event.loginSettled origin true)).reconnectAttempts = 0 := by
  refine ⟨run_attempts_le cfg es, rfl, ?_, ?_⟩
  · have : s.reconnectAttempts ≥ maxReconnectAttempts := hs
    simp [reconnect, this]
  · rw [step_of_running cfg _ _ ht]
    simp [dispatch, loginSettled, hp]

/-- Witness of C3: five heartbeat checks that find the client not ready exhaust the budget;
the next call of `reconnect` exits. The login started by the first of them resolves. -/
theorem reconnect_attempts_bounded_witness :
    (run statusConfig init
        [Event.clientReady PresenceOutcome.ok, Event.heartbeatTick 2 false,
         Event.heartbeatTick 2 false, Event.heartbeatTick 2 false,
         Event.heartbeatTick 2 false, Event.heartbeatTick 2 false]).reconnectAttempts = 5
    ∧ (reconnect (run statusConfig init
        [Event.clientReady PresenceOutcome.ok, Event.heartbeatTick 2 false,
         Event.heartbeatTick 2 false, Event.heartbeatTick 2 false,
         Event.heartbeatTick 2 false, Event.heartbeatTick 2 false])).exited = some 1
    ∧ (step statusConfig (run statusConfig init
        [Event.clientReady PresenceOutcome.ok, Event.heartbeatTick 2 false])
        (Event.loginSettled LoginOrigin.reconnect true)).reconnectAttempts = 0 :=
  ⟨by decide,
   (reconnect_attempts_bounded statusConfig [] (run statusConfig init
        [Event.clientReady PresenceOutcome.ok, Event.heartbeatTick 2 false,
         Event.heartbeatTick 2 false, Event.heartbeatTick 2 false,
         Event.heartbeatTick 2 false, Event.heartbeatTick 2 false])
      (run statusConfig init
        [Event.clientReady PresenceOutcome.ok, Event.heartbeatTick 2 false])
      LoginOrigin.reconnect (by decide) (by decide) (by decide)).2.2.1.1,
   (reconnect_attempts_bounded statusConfig [] (run statusConfig init
        [Event.clientReady PresenceOutcome.ok, Event.heartbeatTick 2 false,
         Event.heartbeatTick 2 false, Event.heartbeatTick 2 false,
         Event.heartbeatTick 2 false, Event.heartbeatTick 2 false])
      (run statusConfig init
        [Event.clientReady PresenceOutcome.ok, Event.heartbeatTick 2 false])
      LoginOrigin.reconnect (by decide) (by decide) (by decide)).2.2.2⟩

theorem retryRound_continue (cfg : StatusConfig) (t : State) (hx : t.exited = none)
    (hp : LoginOrigin.reconnect ∈ t.pendingLogins)
    (ha : t.reconnectAttempts < maxReconnectAttempts) :
    (run cfg t retryRound).exited = none
    ∧ (run cfg t retryRound).reconnectAttempts = t.reconnectAttempts + 1
    ∧ LoginOrigin.reconnect ∈ (run cfg t retryRound).pendingLogins
    ∧ (run cfg t retryRound).trace
        = t.trace ++ [Effect.setTimeoutReconnect 5000, Effect.loginStart] := by
  have hna : ¬ (maxReconnectAttempts ≤ t.reconnectAttempts) := Nat.not_le.mpr ha
  simp [run, retryRound, step, dispatch, loginSettled, reconnect, hx, hp, hna, reconnectDelay]

theorem retryRound_exhausted (cfg : StatusConfig) (t : State) (hx : t.exited = none)
    (hp : LoginOrigin.reconnect ∈ t.pendingLogins)
    (ha : maxReconnectAttempts ≤ t.reconnectAttempts) :
    (run cfg t retryRound).exited = some 1
    ∧ (run cfg t retryRound).trace
        = t.trace ++ [Effect.setTimeoutReconnect 5000, Effect.exit 1] := by
  simp [run, retryRound, step, dispatch, loginSettled, reconnect, hx, hp, ha, reconnectDelay]

theorem retryRounds_progress (cfg : StatusConfig) (s : State) (hx : s.exited = none)
    (ha : s.reconnectAttempts = 0) (k : Nat) (hk : k < maxReconnectAttempts) :
    (run cfg (reconnect s) (retryRounds k)).exited = none
    ∧ (run cfg (reconnect s) (retryRounds k)).reconnectAttempts = k + 1
    ∧ LoginOrigin.reconnect ∈ (run cfg (reconnect s) (retryRounds k)).pendingLogins
    ∧ (run cfg (reconnect s) (retryRounds k)).trace
        = s.trace ++ failedAttempts k ++ [Effect.loginStart] := by
  induction k with
  | zero =>
    simp [retryRounds, run, reconnect, ha, hx, failedAttempts, maxReconnectAttempts]
  | succ n ih =>
    obtain ⟨i1, i2, i3, i4⟩ := ih (Nat.lt_of_succ_lt hk)
    have hlt : (run cfg (reconnect s) (retryRounds n)).reconnectAttempts
        < maxReconnectAttempts := by rw [i2]; exact hk
    obtain ⟨r1, r2, r3, r4⟩ := retryRound_continue cfg _ i1 i3 hlt
    simp only [retryRounds, run_concat]
    refine ⟨r1, by rw [r2, i2], r3, ?_⟩
    rw [r4, i4]
    simp [failedAttempts]

/-- C4. From a running state with `reconnectAttempts = 0`, if every login rejects, the chain
started by one call of `reconnect` and continued only by its own retry timers starts exactly
5 logins, each rejection scheduling one retry after 5000 ms, stays alive until the fifth
retry timer fires, and then exits the process with status 1. -/
theorem reconnect_chain_exhausts (cfg : StatusConfig) (s : State) (hx : s.exited = none)
    (ha : s.reconnectAttempts = 0) :
    (∀ k, k < 5 → (run cfg (reconnect s) (retryRounds k)).exited = none
        ∧ (run cfg (reconnect s) (retryRounds k)).trace
          = s.trace ++ failedAttempts k ++ [Effect.loginStart])
    ∧ (run cfg (reconnect s) (retryRounds 5)).exited = some 1
    ∧ (run cfg (reconnect s) (retryRounds 5)).trace
        = s.trace ++ [Effect.loginStart, Effect.setTimeoutReconnect 5000,
            Effect.loginStart, Effect.setTimeoutReconnect 5000,
            Effect.loginStart, Effect.setTimeoutReconnect 5000,
            Effect.loginStart, Effect.setTimeoutReconnect 5000,
            Effect.loginStart, Effect.setTimeoutReconnect 5000,
            Effect.exit 1] := by
  refine ⟨?_, ?_⟩
  · intro k hk
    obtain ⟨i1, -, -, i4⟩ := retryRounds_progress cfg s hx ha k hk
    exact ⟨i1, i4⟩
  · obtain ⟨i1, i2, i3, i4⟩ := retryRounds_progress cfg s hx ha 4 (by decide)
    have hge : maxReconnectAttempts
        ≤ (run cfg (reconnect s) (retryRounds 4)).reconnectAttempts := by
      rw [i2]; decide
    obtain ⟨r1, r2⟩ := retryRound_exhausted cfg _ i1 i3 hge
    have h5 : retryRounds 5 = retryRounds 4 ++ retryRound := rfl
    rw [h5, run_concat]
    refine ⟨r1, ?_⟩
    rw [r2, i4]
    simp [failedAttempts]

/-- Witness of C4: the chain started in the state reached after the first login and Ready. -/
theorem reconnect_chain_exhausts_witness :
    (run statusConfig (reconnect (run statusConfig init
        [Event.loginSettled LoginOrigin.startup true, Event.clientReady PresenceOutcome.ok]))
      (retryRounds 5)).exited = some 1 :=
  (reconnect_chain_exhausts statusConfig (run statusConfig init
      [Event.loginSettled LoginOrigin.startup true, Event.clientReady PresenceOutcome.ok])
    (by decide) (by decide)).2.1

/-- C7, as stated, fails: with a login of `reconnect` still pending after one failed heartbeat
check, a second failed check is not a no-op; it counts a second attempt and starts a second
login. -/
theorem reentrant_reconnect_counts_twice :
    (run statusConfig init
        [Event.loginSettled LoginOrigin.startup true, Event.clientReady PresenceOutcome.ok,
         Event.shardDisconnect, Event.heartbeatTick 2 false]).pendingLogins
      = [LoginOrigin.reconnect]
    ∧ (run statusConfig init
        [Event.loginSettled LoginOrigin.startup true, Event.clientReady PresenceOutcome.ok,
         Event.shardDisconnect, Event.heartbeatTick 2 false]).reconnectAttempts = 1
    ∧ (run statusConfig init
        [Event.loginSettled LoginOrigin.startup true, Event.clientReady PresenceOutcome.ok,
         Event.shardDisconnect, Event.heartbeatTick 2 false,
         Event.heartbeatTick 2 false]).pendingLogins
      = [LoginOrigin.reconnect, LoginOrigin.reconnect]
    ∧ (run statusConfig init
        [Event.loginSettled LoginOrigin.startup true, Event.clientReady PresenceOutcome.ok,
         Event.shardDisconnect, Event.heartbeatTick 2 false,
         Event.heartbeatTick 2 false]).reconnectAttempts = 2 := by
  decide

/-- C7, amended. A call of `reconnect` made while a login of an earlier call is still
pending is not a no-op: as long as `reconnectAttempts < 5` it increments the counter and
starts another login, so two logins are in flight and two attempts are counted. -/
theorem reentrant_reconnect_increments (s : State)
    (hp : LoginOrigin.reconnect ∈ s.pendingLogins)
    (ha : s.reconnectAttempts < maxReconnectAttempts) :
    (reconnect s).reconnectAttempts = s.reconnectAttempts + 1
    ∧ (reconnect s).pendingLogins = s.pendingLogins ++ [LoginOrigin.reconnect]
    ∧ 2 ≤ (reconnect s).pendingLogins.count LoginOrigin.reconnect
    ∧ (reconnect s).trace = s.trace ++ [Effect.loginStart]
    ∧ (reconnect s).exited = s.exited := by
  have hna : ¬ (maxReconnectAttempts ≤ s.reconnectAttempts) := Nat.not_le.mpr ha
  have hc : 1 ≤ s.pendingLogins.count LoginOrigin.reconnect :=
    List.count_pos_iff.mpr hp
  have e : reconnect s = { s with
      reconnectAttempts := s.reconnectAttempts + 1
      pendingLogins := s.pendingLogins ++ [LoginOrigin.reconnect]
      trace := s.trace ++ [Effect.loginStart] } := by
    simp [reconnect, hna]
  rw [e]
  refine ⟨rfl, rfl, ?_, rfl, rfl⟩
  show 2 ≤ List.count LoginOrigin.reconnect (s.pendingLogins ++ [LoginOrigin.reconnect])
  rw [List.count_append]
  have h1 : List.count LoginOrigin.reconnect [LoginOrigin.reconnect] = 1 := by decide
  omega

/-- Witness of C7 (amended): the second call while the first login is pending. -/
theorem reentrant_reconnect_increments_witness :
    (reconnect (run statusConfig init
        [Event.loginSettled LoginOrigin.startup true, Event.clientReady PresenceOutcome.ok,
         Event.shardDisconnect, Event.heartbeatTick 2 false])).reconnectAttempts
      = (run statusConfig init
        [Event.loginSettled LoginOrigin.startup true, Event.clientReady PresenceOutcome.ok,
         Event.shardDisconnect, Event.heartbeatTick 2 false]).reconnectAttempts + 1 :=
  (reentrant_reconnect_increments (run statusConfig init
      [Event.loginSettled LoginOrigin.startup true, Event.clientReady PresenceOutcome.ok,
       Event.shardDisconnect, Event.heartbeatTick 2 false]) (by decide) (by decide)).1

/-! ## The handler of Ready runs once -/

theorem startStatusRotation_frame (cfg : StatusConfig) (s : State) (o : PresenceOutcome) :
    (startStatusRotation cfg s o).exited = s.exited
    ∧ (startStatusRotation cfg s o).readyArmed = s.readyArmed
    ∧ (startStatusRotation cfg s o).pendingLogins = s.pendingLogins
    ∧ (startStatusRotation cfg s o).pendingRetries = s.pendingRetries
    ∧ (∀ h, (h, TimerKind.heartbeat) ∈ (startStatusRotation cfg s o).timers
        → (h, TimerKind.heartbeat) ∈ s.timers) := by
  have f1 := fun t => (updateStatus_frame cfg t o).1
  have f4 := fun t => (updateStatus_frame cfg t o).2.2.2.1
  have f5 := fun t => (updateStatus_frame cfg t o).2.2.2.2.1
  have f6 := fun t => (updateStatus_frame cfg t o).2.2.2.2.2.1
  have f7 := fun t => (updateStatus_frame cfg t o).2.2.2.2.2.2.1
  unfold startStatusRotation
  cases hsi : s.statusInterval with
  | none => simp [setInterval, f1, f4, f5, f6, f7]
  | some h =>
    simp only [setInterval, f1, f4, f5, f6, f7, clearInterval, List.mem_append,
      List.mem_filter, List.mem_singleton, Prod.mk.injEq, true_and]
    intro a ha
    rcases ha with ha | ha
    · exact ha.1
    · exact absurd ha.2 (by decide)

theorem readyFirst_of_unarmed (s : State) (h : s.readyArmed = false) : ReadyFirst s := by
  intro ha
  rw [h] at ha
  cases ha

theorem readyFirst_mono (s t : State) (hs : ReadyFirst s)
    (h1 : t.readyArmed = true → s.readyArmed = true)
    (h2 : ∀ h, (h, TimerKind.heartbeat) ∈ t.timers → (h, TimerKind.heartbeat) ∈ s.timers)
    (h3 : t.pendingRetries ≤ s.pendingRetries)
    (h4 : LoginOrigin.reconnect ∈ t.pendingLogins → LoginOrigin.reconnect ∈ s.pendingLogins) :
    ReadyFirst t := by
  intro ha
  obtain ⟨g1, g2, g3⟩ := hs (h1 ha)
  refine ⟨fun h hm => g1 h (h2 h hm), ?_, fun hm => g3 (h4 hm)⟩
  omega

theorem armed_false_of_heartbeat (s : State) (hs : ReadyFirst s) (h : Nat)
    (hm : (h, TimerKind.heartbeat) ∈ s.timers) : s.readyArmed = false := by
  cases ha : s.readyArmed with
  | false => rfl
  | true => exact absurd hm ((hs ha).1 h)

theorem armed_false_of_retry (s : State) (hs : ReadyFirst s) (hm : 0 < s.pendingRetries) :
    s.readyArmed = false := by
  cases ha : s.readyArmed with
  | false => rfl
  | true =>
    have := (hs ha).2.1
    omega

theorem armed_false_of_pending (s : State) (hs : ReadyFirst s)
    (hm : LoginOrigin.reconnect ∈ s.pendingLogins) : s.readyArmed = false := by
  cases ha : s.readyArmed with
  | false => rfl
  | true => exact absurd hm (hs ha).2.2

theorem dispatch_readyFirst (cfg : StatusConfig) (s : State) (e : Event)
    (hs : ReadyFirst s) : ReadyFirst (dispatch cfg s e) := by
  cases e with
  | clientReady o =>
    simp only [dispatch, onClientReady]
    split
    · apply readyFirst_of_unarmed
      simp [startHeartbeat, setInterval, (startStatusRotation_frame cfg _ o).2.1]
    · exact hs
  | shardDisconnect =>
    simp only [dispatch, onShardDisconnect]
    split
    · apply readyFirst_mono s _ hs
      · exact id
      · intro h hm
        simp only [clearInterval, List.mem_filter] at hm
        exact hm.1
      · exact Nat.le_refl _
      · exact id
    · exact hs
  | shardReconnecting => exact hs
  | shardResume o =>
    obtain ⟨-, f2, f3, f4, f5⟩ := startStatusRotation_frame cfg s o
    apply readyFirst_mono s _ hs
    · intro h; rw [← f2]; exact h
    · exact f5
    · exact Nat.le_of_eq f4
    · intro h; rw [← f3]; exact h
  | statusTick a o =>
    simp only [dispatch]
    split
    · obtain ⟨f1, -, -, -, f5, f6, f7, -⟩ := updateStatus_frame cfg s o
      apply readyFirst_mono s _ hs
      · intro h; rw [← f5]; exact h
      · intro h hm; rw [← f1]; exact hm
      · exact Nat.le_of_eq f7
      · intro h; rw [← f6]; exact h
    · exact hs
  | heartbeatTick a isReady =>
    simp only [dispatch, heartbeat]
    split
    · rename_i hm
      split
      · exact hs
      · apply readyFirst_of_unarmed
        rw [(reconnect_frame s).2.2.2.1]
        exact armed_false_of_heartbeat s hs a hm
    · exact hs
  | loginSettled origin b =>
    simp only [dispatch]
    by_cases hm : origin ∈ s.pendingLogins
    · cases origin with
      | reconnect =>
        apply readyFirst_of_unarmed
        rw [(loginSettled_frame s _ b).2.2.2.1]
        exact armed_false_of_pending s hs hm
      | startup =>
        apply readyFirst_mono s _ hs
        · intro h; rw [← (loginSettled_frame s _ b).2.2.2.1]; exact h
        · intro h hh; rw [← (loginSettled_frame s _ b).1]; exact hh
        · cases b <;> simp [loginSettled, hm]
        · cases b <;> simp only [loginSettled, hm, if_true] <;> intro hh
          · exact List.mem_of_mem_erase hh
          · exact List.mem_of_mem_erase hh
    · simp only [loginSettled, hm, if_false]
      exact hs
  | retryFire =>
    simp only [dispatch]
    split
    · rename_i hm
      apply readyFirst_of_unarmed
      rw [(reconnect_frame _).2.2.2.1]
      exact armed_false_of_retry s hs hm
    · exact hs
  | sigint =>
    simp only [dispatch, onSigint]
    apply readyFirst_mono s _ hs
    · split <;> exact id
    · intro h
      split
      · intro hm
        simp only [clearInterval, List.mem_filter] at hm
        exact hm.1
      · exact id
    · split <;> exact Nat.le_refl _
    · split <;> exact id

theorem run_readyFirst (cfg : StatusConfig) (es : List Event) :
    ReadyFirst (run cfg init es) := by
  induction es using List.reverseRecOn with
  | nil =>
    intro _
    simp [run, init]
  | append_singleton l e ih =>
    rw [run_append]
    by_cases hx : (run cfg init l).exited = none
    · rw [step_of_running cfg _ _ hx]
      exact dispatch_readyFirst cfg _ e ih
    · rw [step_of_exited cfg _ _ hx]
      exact ih

/-- C8, as stated, fails: after Ready and Disconnected the rotation is stopped; a failed
heartbeat check starts `reconnect`, its login resolves and the counter is 0 again, but the
rotation is still stopped, also after the client emits Ready once more. -/
theorem reconnect_success_leaves_rotation_stopped :
    rotationRunning (run statusConfig init
        [Event.loginSettled LoginOrigin.startup true, Event.clientReady PresenceOutcome.ok,
         Event.shardDisconnect, Event.heartbeatTick 2 false]) = false
    ∧ (run statusConfig init
        [Event.loginSettled LoginOrigin.startup true, Event.clientReady PresenceOutcome.ok,
         Event.shardDisconnect, Event.heartbeatTick 2 false,
         Event.loginSettled LoginOrigin.reconnect true]).reconnectAttempts = 0
    ∧ rotationRunning (run statusConfig init
        [Event.loginSettled LoginOrigin.startup true, Event.clientReady PresenceOutcome.ok,
         Event.shardDisconnect, Event.heartbeatTick 2 false,
         Event.loginSettled LoginOrigin.reconnect true]) = false
    ∧ rotationRunning (run statusConfig init
        [Event.loginSettled LoginOrigin.startup true, Event.clientReady PresenceOutcome.ok,
         Event.shardDisconnect, Event.heartbeatTick 2 false,
         Event.loginSettled LoginOrigin.reconnect true,
         Event.clientReady PresenceOutcome.ok]) = false := by
  decide

/-- C8, amended. When the login of a reconnect attempt resolves, `reconnectAttempts` is reset
to 0 and nothing else happens: `statusInterval` and the timers are untouched, so the rotation
runs afterwards exactly if it ran before, and a Ready signal the client emits afterwards
changes nothing, because the handler registered with `once` has already run. -/
theorem reconnect_success_resets_counter_only (cfg : StatusConfig) (es : List Event)
    (o : PresenceOutcome)
    (hx : (run cfg init es).exited = none)
    (hp : LoginOrigin.reconnect ∈ (run cfg init es).pendingLogins) :
    (step cfg (run cfg init es)
        (Event.loginSettled LoginOrigin.reconnect true)).reconnectAttempts = 0
    ∧ (step cfg (run cfg init es)
        (Event.loginSettled LoginOrigin.reconnect true)).statusInterval
        = (run cfg init es).statusInterval
    ∧ (step cfg (run cfg init es)
        (Event.loginSettled LoginOrigin.reconnect true)).timers = (run cfg init es).timers
    ∧ rotationRunning (step cfg (run cfg init es)
        (Event.loginSettled LoginOrigin.reconnect true)) = rotationRunning (run cfg init es)
    ∧ step cfg (step cfg (run cfg init es) (Event.loginSettled LoginOrigin.reconnect true))
        (Event.clientReady o)
      = step cfg (run cfg init es) (Event.loginSettled LoginOrigin.reconnect true) := by
  have harm := armed_false_of_pending _ (run_readyFirst cfg es) hp
  have hd : step cfg (run cfg init es) (Event.loginSettled LoginOrigin.reconnect true)
      = { run cfg init es with
          pendingLogins := (run cfg init es).pendingLogins.erase LoginOrigin.reconnect
          reconnectAttempts := 0 } := by
    rw [step_of_running cfg _ _ hx]
    simp [dispatch, loginSettled, hp]
  rw [hd]
  refine ⟨rfl, rfl, rfl, rfl, ?_⟩
  rw [step_of_running cfg _ _ (by exact hx)]
  simp [dispatch, onClientReady, harm]

/-- Witness of C8 (amended): the login of the reconnect attempt started after Ready,
Disconnected and a failed heartbeat check resolves. -/
theorem reconnect_success_resets_counter_only_witness :
    (step statusConfig (run statusConfig init
        [Event.loginSettled LoginOrigin.startup true, Event.clientReady PresenceOutcome.ok,
         Event.shardDisconnect, Event.heartbeatTick 2 false])
        (Event.loginSettled LoginOrigin.reconnect true)).reconnectAttempts = 0
    ∧ rotationRunning (step statusConfig (run statusConfig init
        [Event.loginSettled LoginOrigin.startup true, Event.clientReady PresenceOutcome.ok,
         Event.shardDisconnect, Event.heartbeatTick 2 false])
        (Event.loginSettled LoginOrigin.reconnect true))
      = rotationRunning (run statusConfig init
        [Event.loginSettled LoginOrigin.startup true, Event.clientReady PresenceOutcome.ok,
         Event.shardDisconnect, Event.heartbeatTick 2 false]) :=
  ⟨(reconnect_success_resets_counter_only statusConfig
      [Event.loginSettled LoginOrigin.startup true, Event.clientReady PresenceOutcome.ok,
       Event.shardDisconnect, Event.heartbeatTick 2 false] PresenceOutcome.ok
      (by decide) (by decide)).1,
   (reconnect_success_resets_counter_only statusConfig
      [Event.loginSettled LoginOrigin.startup true, Event.clientReady PresenceOutcome.ok,
       Event.shardDisconnect, Event.heartbeatTick 2 false] PresenceOutcome.ok
      (by decide) (by decide)).2.2.2.1⟩

/-! ## Gateway events and the rotation -/

theorem lastSignal_concat (l : List Event) (e : Event) :
    lastSignal (l ++ [e]) = if e = Event.shardReconnecting then lastSignal l else some e := by
  unfold lastSignal
  rw [List.filter_append]
  by_cases h : e = Event.shardReconnecting
  · simp [h]
  · simp [h]

theorem rotationRunning_startHeartbeat (cfg : StatusConfig) (s : State) :
    rotationRunning (startHeartbeat cfg s) = rotationRunning s := by
  unfold rotationRunning
  cases hsi : s.statusInterval with
  | none => simp [startHeartbeat, setInterval, hsi]
  | some h => simp [startHeartbeat, setInterval, hsi]

/-- C5, as stated, fails: after Ready and Reconnecting the rotation is running although the
last processed event transitions ConnectionState to Reconnecting, not Connected; and after
Ready, Disconnected and a second Ready the rotation is stopped although ConnectionState is
Connected, because the handler of Ready was registered with `once`. -/
theorem rotation_runs_while_reconnecting :
    rotationRunning (run statusConfig init
        [Event.clientReady PresenceOutcome.ok, Event.shardReconnecting]) = true
    ∧ specConnectionState [Event.clientReady PresenceOutcome.ok, Event.shardReconnecting]
        = ConnectionState.reconnecting
    ∧ ¬ (rotationRunning (run statusConfig init
          [Event.clientReady PresenceOutcome.ok, Event.shardReconnecting]) = true
        ↔ specConnectionState [Event.clientReady PresenceOutcome.ok, Event.shardReconnecting]
          = ConnectionState.connected)
    ∧ rotationRunning (run statusConfig init
        [Event.clientReady PresenceOutcome.ok, Event.shardDisconnect,
         Event.clientReady PresenceOutcome.ok]) = false
    ∧ specConnectionState [Event.clientReady PresenceOutcome.ok, Event.shardDisconnect,
         Event.clientReady PresenceOutcome.ok] = ConnectionState.connected := by
  decide

theorem gateway_invariant (cfg : StatusConfig) (es : List Event)
    (hg : ∀ e ∈ es, isGatewayEvent e = true)
    (h1 : (es.filter isClientReady).length ≤ 1) :
    (run cfg init es).exited = none
    ∧ ((run cfg init es).readyArmed = true ↔ es.filter isClientReady = [])
    ∧ rotationRunning (run cfg init es) = lastSignalStarts es := by
  induction es using List.reverseRecOn with
  | nil => simp [run, init, rotationRunning, lastSignalStarts, lastSignal]
  | append_singleton l e ih =>
    have hgl : ∀ x ∈ l, isGatewayEvent x = true :=
      fun x hx => hg x (List.mem_append_left _ hx)
    have hge : isGatewayEvent e = true := hg e (by simp)
    have hlen : (l.filter isClientReady).length ≤ 1 := by
      rw [List.filter_append, List.length_append] at h1
      omega
    obtain ⟨i1, i2, i3⟩ := ih hgl hlen
    rw [run_append, step_of_running cfg _ _ i1]
    unfold lastSignalStarts
    rw [lastSignal_concat]
    cases e with
    | clientReady o =>
      have hnil : l.filter isClientReady = [] := by
        rw [List.filter_append, List.length_append] at h1
        have : (List.filter isClientReady [Event.clientReady o]).length = 1 := rfl
        rw [this] at h1
        exact List.length_eq_zero.mp (by omega)
      have harm := i2.mpr hnil
      obtain ⟨f1, f2, -⟩ := startStatusRotation_frame cfg
        { run cfg init l with readyArmed := false } o
      simp only [dispatch, onClientReady, harm, if_true]
      refine ⟨?_, ?_, ?_⟩
      · simp only [startHeartbeat, setInterval, f1]
        exact i1
      · simp [startHeartbeat, setInterval, f2, List.filter_append, isClientReady]
      · have hr := rotationRunning_startStatusRotation cfg
          { run cfg init l with readyArmed := false } o
        have hh := rotationRunning_startHeartbeat cfg (startStatusRotation cfg
          { run cfg init l with readyArmed := false } o)
        rw [hr] at hh
        simp only [reduceCtorEq, if_false]
        rw [← hh]
        rfl
    | shardDisconnect =>
      obtain ⟨-, -, f3, f4, -⟩ := onShardDisconnect_frame (run cfg init l)
      simp only [dispatch]
      refine ⟨by rw [f4]; exact i1, ?_, ?_⟩
      · have : (onShardDisconnect (run cfg init l)).readyArmed = (run cfg init l).readyArmed := by
          unfold onShardDisconnect
          split <;> simp [clearInterval]
        rw [this, i2]
        simp [List.filter_append, isClientReady]
      · simp [rotationRunning, f3]
    | shardReconnecting =>
      simp only [dispatch, onShardReconnecting, if_true]
      refine ⟨i1, ?_, ?_⟩
      · rw [i2]
        simp [List.filter_append, isClientReady]
      · rw [i3]
        rfl
    | shardResume o =>
      obtain ⟨f1, f2, -⟩ := startStatusRotation_frame cfg (run cfg init l) o
      simp only [dispatch, onShardResume]
      refine ⟨by rw [f1]; exact i1, ?_, ?_⟩
      · rw [f2, i2]
        simp [List.filter_append, isClientReady]
      · rw [rotationRunning_startStatusRotation]
        simp
    | statusTick a o => cases hge
    | heartbeatTick a b => cases hge
    | loginSettled a b => cases hge
    | retryFire => cases hge
    | sigint => cases hge

/-- C5, amended. For every sequence of gateway events in which Ready occurs at most once,
after the handlers have processed it the rotation is running if and only if the last event
other than Reconnecting is Ready or Resumed (Reconnecting only logs and leaves the
rotation as it is). -/
theorem rotation_follows_last_signal (cfg : StatusConfig) (es : List Event)
    (hg : ∀ e ∈ es, isGatewayEvent e = true)
    (h1 : (es.filter isClientReady).length ≤ 1) :
    rotationRunning (run cfg init es) = lastSignalStarts es :=
  (gateway_invariant cfg es hg h1).2.2

/-- Witness of C5 (amended): Ready, Reconnecting, Disconnected, Reconnecting, Resumed,
Reconnecting ends with the rotation running. -/
theorem rotation_follows_last_signal_witness :
    rotationRunning (run statusConfig init
        [Event.clientReady PresenceOutcome.ok, Event.shardReconnecting, Event.shardDisconnect,
         Event.shardReconnecting, Event.shardResume PresenceOutcome.ok,
         Event.shardReconnecting])
      = lastSignalStarts
        [Event.clientReady PresenceOutcome.ok, Event.shardReconnecting, Event.shardDisconnect,
         Event.shardReconnecting, Event.shardResume PresenceOutcome.ok,
         Event.shardReconnecting] :=
  rotation_follows_last_signal statusConfig
    [Event.clientReady PresenceOutcome.ok, Event.shardReconnecting, Event.shardDisconnect,
     Event.shardReconnecting, Event.shardResume PresenceOutcome.ok, Event.shardReconnecting]
    (by decide) (by decide)

end Discord
